import Mathlib

/-!
Shallow embedding of the covoiturage-ci reservation / trip-inventory core.

Definitions are translated from:
  src/backend/src/models/user.py         (User, update_rating, can_create_trip)
  src/backend/src/models/trip.py         (Trip, is_bookable, book_seat, cancel_booking)
  src/backend/src/models/reservation.py  (Reservation, statuses, can_be_cancelled,
                                          can_be_rated, start_trip)
  src/backend/src/services/trip.py       (TripService.create_trip)
  src/backend/src/services/reservation.py (ReservationService.create_reservation,
                                          confirm_reservation, cancel_reservation,
                                          mark_reservation_as_started, rate_trip)

Conventions of the embedding:
  * Python ints are `Int` (no overflow), SQL float money/rating columns are `ℚ`,
    ids are `Nat`, timestamps are an abstract `Int` instant passed in as `now`.
  * A service call that raises `HTTPException` is `Except.error`; since every
    service commits only at the end of its body, an error carries no mutated
    state (all-or-nothing, as in the source where the session is not flushed).
  * The SQLAlchemy queries that the claims depend on are modelled over explicit
    lists standing for the table contents; `db.refresh` / `db.commit` are
    identity on the modelled state.
  * `None`-able text/f timestamp columns are `Option` fields; a Python falsy
    `message` (None or empty) is modelled as `none`.
-/

namespace Covoiturage

/-- Trip statuses, from models/trip.py `TripStatus`. -/
inductive TripStatus where
  | ACTIVE
  | FULL
  | STARTED
  | COMPLETED
  | CANCELLED
deriving DecidableEq

/-- Reservation statuses, from models/reservation.py `ReservationStatus`. -/
inductive ReservationStatus where
  | PENDING
  | CONFIRMED
  | PAID
  | STARTED
  | COMPLETED
  | CANCELLED_BY_PASSENGER
  | CANCELLED_BY_DRIVER
  | NO_SHOW
deriving DecidableEq

/-- User types, from models/user.py `UserType`. -/
inductive UserType where
  | PASSAGER
  | CONDUCTEUR
  | BOTH
deriving DecidableEq

/-- User verification statuses, from models/user.py `UserStatus`. -/
inductive UserStatus where
  | PENDING
  | VERIFIED
  | SUSPENDED
  | BANNED
deriving DecidableEq

/-- The error kinds raised by the services (`HTTPException` status codes
403 / 400 / 404 in the source). -/
inductive ApiError where
  | notFound
  | forbidden
  | badRequest
deriving DecidableEq

/-- The fields of models/user.py `User` that the core logic reads or writes. -/
structure User where
  id : Nat
  is_phone_verified : Bool
  is_active : Bool
  user_type : UserType
  status : UserStatus
  driver_license_verified : Bool
  rating_average : ℚ
  total_ratings : Int
deriving DecidableEq

/-- The fields of models/trip.py `Trip` that the core logic reads or writes. -/
structure Trip where
  id : Nat
  driver_id : Nat
  total_seats : Int
  available_seats : Int
  price_per_seat : ℚ
  status : TripStatus
  departure_datetime : Int
deriving DecidableEq

/-- The fields of models/reservation.py `Reservation` that the core logic
reads or writes. -/
structure Reservation where
  trip_id : Nat
  passenger_id : Nat
  number_of_seats : Int
  status : ReservationStatus
  total_price : ℚ
  price_per_seat : ℚ
  platform_fee : ℚ
  confirmed_at : Option Int := none
  cancelled_at : Option Int := none
  cancellation_reason : Option String := none
  actual_pickup_time : Option Int := none
  actual_dropoff_time : Option Int := none
  driver_rating : Option Int := none
  passenger_rating : Option Int := none
  passenger_comment : Option String := none
  driver_comment : Option String := none
  driver_notes : Option String := none
deriving DecidableEq

/-- models/user.py `User.is_driver`. -/
def User.is_driver (u : User) : Bool :=
  decide (u.user_type = UserType.CONDUCTEUR ∨ u.user_type = UserType.BOTH)

/-- models/user.py `User.is_verified`. -/
def User.is_verified (u : User) : Bool :=
  let basic := u.is_phone_verified && decide (u.status = UserStatus.VERIFIED)
  if u.is_driver then basic && u.driver_license_verified else basic

/-- models/user.py `User.can_create_trip`. -/
def User.can_create_trip (u : User) : Bool :=
  u.is_driver && u.is_verified && decide (u.status = UserStatus.VERIFIED) && u.is_active

/-- models/user.py `User.update_rating`: running-average update. -/
def User.update_rating (u : User) (new_rating : ℚ) : User :=
  let total_score := u.rating_average * (u.total_ratings : ℚ)
  let new_total := u.total_ratings + 1
  { u with total_ratings := new_total
           rating_average := (total_score + new_rating) / (new_total : ℚ) }

/-- models/trip.py `Trip.is_bookable` (`func.now()` is the `now` argument). -/
def Trip.is_bookable (t : Trip) (now : Int) : Bool :=
  decide (t.status = TripStatus.ACTIVE ∧ 0 < t.available_seats ∧
    now < t.departure_datetime)

/-- models/trip.py `Trip.book_seat`: decrement seats if possible, flip to FULL
at zero; returns the updated trip and the Python boolean result. -/
def Trip.book_seat (t : Trip) (passenger_count : Int) (now : Int) : Trip × Bool :=
  if passenger_count ≤ t.available_seats ∧ t.is_bookable now then
    let t1 := { t with available_seats := t.available_seats - passenger_count }
    let t2 := if t1.available_seats = 0 then { t1 with status := TripStatus.FULL } else t1
    (t2, true)
  else
    (t, false)

/-- models/trip.py `Trip.cancel_booking`: add the count back unconditionally,
revert FULL to ACTIVE when capacity reappears. -/
def Trip.cancel_booking (t : Trip) (passenger_count : Int) : Trip :=
  let t1 := { t with available_seats := t.available_seats + passenger_count }
  if t1.status = TripStatus.FULL ∧ 0 < t1.available_seats then
    { t1 with status := TripStatus.ACTIVE }
  else
    t1

/-- models/reservation.py `Reservation.can_be_cancelled`. -/
def Reservation.can_be_cancelled (r : Reservation) : Bool :=
  decide (r.status = ReservationStatus.PENDING ∨
    r.status = ReservationStatus.CONFIRMED ∨
    r.status = ReservationStatus.PAID)

/-- models/reservation.py `Reservation.can_be_rated`. -/
def Reservation.can_be_rated (r : Reservation) : Bool :=
  decide (r.status = ReservationStatus.COMPLETED)

/-- models/reservation.py `Reservation.start_trip`: succeeds only from PAID;
returns the (possibly) updated reservation and the Python boolean result. -/
def Reservation.start_trip (r : Reservation) (now : Int) : Reservation × Bool :=
  if r.status = ReservationStatus.PAID then
    ({ r with status := ReservationStatus.STARTED, actual_pickup_time := some now }, true)
  else
    (r, false)

/-- Membership test used by the active-reservation queries in
services/reservation.py (status in PENDING/CONFIRMED/PAID/STARTED). -/
def isActiveStatus (s : ReservationStatus) : Bool :=
  decide (s = ReservationStatus.PENDING ∨ s = ReservationStatus.CONFIRMED ∨
    s = ReservationStatus.PAID ∨ s = ReservationStatus.STARTED)

/-- The `db.query(Reservation).filter(...)` lookup inside
`ReservationService.create_reservation`: first reservation of the table with
the given trip and passenger and an active status. -/
def findActiveReservation (reservations : List Reservation)
    (t_id p_id : Nat) : Option Reservation :=
  reservations.find? fun r =>
    decide (r.trip_id = t_id ∧ r.passenger_id = p_id) && isActiveStatus r.status

/-- The caller-supplied reservation payload consumed by
`ReservationService.create_reservation` (only the fields the core reads). -/
structure ReservationData where
  number_of_seats : Int
deriving DecidableEq

/-- services/reservation.py `ReservationService.create_reservation`.

The trip has already been fetched by `TripService.get_trip_by_id` (the
not-found path is orthogonal to the modelled claims); `reservations` is the
reservation table the duplicate-check query runs over.  On success the commit
returns the (untouched) trip, the grown table and the new row. -/
def ReservationService.create_reservation (trip : Trip)
    (reservations : List Reservation) (data : ReservationData)
    (passenger : User) (now : Int) :
    Except ApiError (Trip × List Reservation × Reservation) :=
  if passenger.is_phone_verified = false then
    Except.error ApiError.forbidden
  else if trip.driver_id = passenger.id then
    Except.error ApiError.badRequest
  else if trip.status ≠ TripStatus.ACTIVE ∨ trip.available_seats ≤ 0 ∨
      trip.departure_datetime ≤ now then
    Except.error ApiError.badRequest
  else if trip.available_seats < data.number_of_seats then
    Except.error ApiError.badRequest
  else if (findActiveReservation reservations trip.id passenger.id).isSome then
    Except.error ApiError.badRequest
  else
    let total_price := trip.price_per_seat * (data.number_of_seats : ℚ)
    let platform_fee := total_price * (0.05 : ℚ)
    let new_reservation : Reservation :=
      { trip_id := trip.id
        passenger_id := passenger.id
        number_of_seats := data.number_of_seats
        status := ReservationStatus.PENDING
        total_price := total_price
        price_per_seat := trip.price_per_seat
        platform_fee := platform_fee }
    Except.ok (trip, reservations ++ [new_reservation], new_reservation)

/-- services/reservation.py `ReservationService.confirm_reservation`.
`trip` is the `reservation.trip` relationship row. -/
def ReservationService.confirm_reservation (reservation : Reservation)
    (trip : Trip) (conductor : User) (accept : Bool) (message : Option String)
    (now : Int) : Except ApiError (Reservation × Trip) :=
  if trip.driver_id ≠ conductor.id then
    Except.error ApiError.forbidden
  else if reservation.status ≠ ReservationStatus.PENDING then
    Except.error ApiError.badRequest
  else if accept then
    if trip.available_seats < reservation.number_of_seats then
      Except.error ApiError.badRequest
    else
      let r1 := { reservation with status := ReservationStatus.CONFIRMED
                                   confirmed_at := some now }
      let t1 := { trip with
                    available_seats := trip.available_seats - reservation.number_of_seats }
      let t2 := if t1.available_seats = 0 then { t1 with status := TripStatus.FULL } else t1
      let r2 := match message with
        | some m => { r1 with driver_notes := some m }
        | none => r1
      Except.ok (r2, t2)
  else
    let r1 := { reservation with
                  status := ReservationStatus.CANCELLED_BY_DRIVER
                  cancelled_at := some now
                  cancellation_reason := some (message.getD "Refuse par le conducteur") }
    let r2 := match message with
      | some m => { r1 with driver_notes := some m }
      | none => r1
    Except.ok (r2, trip)

/-- Tail of `ReservationService.cancel_reservation` after the status
overwrite: the release check reads the already-overwritten status, exactly as
the source does. -/
def ReservationService.cancelApply (reservation : Reservation) (trip : Trip)
    (newStatus : ReservationStatus) (reason : String) (now : Int) :
    Except ApiError (Reservation × Trip) :=
  let r1 := { reservation with status := newStatus
                               cancelled_at := some now
                               cancellation_reason := some reason }
  if r1.status = ReservationStatus.CONFIRMED ∨
      r1.status = ReservationStatus.PAID then
    let t1 := { trip with
                  available_seats := trip.available_seats + reservation.number_of_seats }
    let t2 := if t1.status = TripStatus.FULL then { t1 with status := TripStatus.ACTIVE } else t1
    Except.ok (r1, t2)
  else
    Except.ok (r1, trip)

/-- services/reservation.py `ReservationService.cancel_reservation`.
The first guard is `get_reservation_by_id`'s permission check.  Note the
source assigns the CANCELLED status to `reservation.status` and only
afterwards tests `reservation.status in [CONFIRMED, PAID]` for the seat
release; the embedding keeps that order. -/
def ReservationService.cancel_reservation (reservation : Reservation)
    (trip : Trip) (user : User) (reason : String) (now : Int) :
    Except ApiError (Reservation × Trip) :=
  if reservation.passenger_id ≠ user.id ∧ trip.driver_id ≠ user.id then
    Except.error ApiError.forbidden
  else if reservation.can_be_cancelled = false then
    Except.error ApiError.badRequest
  else if reservation.passenger_id = user.id then
    ReservationService.cancelApply reservation trip
      ReservationStatus.CANCELLED_BY_PASSENGER reason now
  else if trip.driver_id = user.id then
    ReservationService.cancelApply reservation trip
      ReservationStatus.CANCELLED_BY_DRIVER reason now
  else
    Except.error ApiError.forbidden

/-- services/reservation.py `ReservationService.mark_reservation_as_started`.
The first guard is `get_reservation_by_id`'s permission check.  The service
requires status CONFIRMED (it does not call `Reservation.start_trip`). -/
def ReservationService.mark_reservation_as_started (reservation : Reservation)
    (trip : Trip) (user : User) (now : Int) : Except ApiError Reservation :=
  if reservation.passenger_id ≠ user.id ∧ trip.driver_id ≠ user.id then
    Except.error ApiError.forbidden
  else if reservation.status ≠ ReservationStatus.CONFIRMED then
    Except.error ApiError.badRequest
  else
    Except.ok { reservation with status := ReservationStatus.STARTED
                                 actual_pickup_time := some now }

/-- services/reservation.py `ReservationService.rate_trip`.  `driver` is
`reservation.trip.driver`, `passenger` is `reservation.passenger`; the call
returns the updated reservation, driver and passenger rows. -/
def ReservationService.rate_trip (reservation : Reservation) (trip : Trip)
    (driver passenger : User) (user : User) (rating : Int)
    (comment : Option String) :
    Except ApiError (Reservation × User × User) :=
  if reservation.passenger_id ≠ user.id ∧ trip.driver_id ≠ user.id then
    Except.error ApiError.forbidden
  else if reservation.can_be_rated = false then
    Except.error ApiError.badRequest
  else if reservation.passenger_id = user.id then
    Except.ok ({ reservation with driver_rating := some rating
                                  passenger_comment := comment },
      driver.update_rating (rating : ℚ), passenger)
  else if trip.driver_id = user.id then
    Except.ok ({ reservation with passenger_rating := some rating
                                  driver_comment := comment },
      driver, passenger.update_rating (rating : ℚ))
  else
    Except.ok (reservation, driver, passenger)

/-- The caller-supplied trip payload consumed by `TripService.create_trip`
(only the fields the core logic reads). -/
structure TripData where
  available_seats : Int
  price_per_seat : ℚ
  departure_datetime : Int
deriving DecidableEq

/-- The `db.query(Trip).filter(...)` count inside `TripService.create_trip`:
number of trips of the driver whose status is ACTIVE or FULL. -/
def TripService.active_trips_count (trips : List Trip) (driver_id : Nat) : Nat :=
  (trips.filter fun t =>
    decide (t.driver_id = driver_id ∧
      (t.status = TripStatus.ACTIVE ∨ t.status = TripStatus.FULL))).length

/-- services/trip.py `TripService.create_trip`: guard on `can_create_trip`,
then on the active-trip limit, then insert the new ACTIVE trip with
`total_seats = available_seats = data.available_seats`.  `new_id` stands for
the id the store assigns to the inserted row. -/
def TripService.create_trip (trips : List Trip) (data : TripData)
    (driver : User) (new_id : Nat) : Except ApiError (List Trip × Trip) :=
  if driver.can_create_trip = false then
    Except.error ApiError.forbidden
  else if 5 ≤ TripService.active_trips_count trips driver.id then
    Except.error ApiError.badRequest
  else
    let new_trip : Trip :=
      { id := new_id
        driver_id := driver.id
        total_seats := data.available_seats
        available_seats := data.available_seats
        price_per_seat := data.price_per_seat
        status := TripStatus.ACTIVE
        departure_datetime := data.departure_datetime }
    Except.ok (trips ++ [new_trip], new_trip)

/-- The trip invariant from the spec: seats within capacity, and FULL exactly
at zero seats while the trip is in a bookable-phase status. -/
def TripInv (t : Trip) : Prop :=
  0 ≤ t.available_seats ∧ t.available_seats ≤ t.total_seats ∧
  ((t.status = TripStatus.ACTIVE ∨ t.status = TripStatus.FULL) →
    (t.status = TripStatus.FULL ↔ t.available_seats = 0))

instance (t : Trip) : Decidable (TripInv t) := by
  unfold TripInv
  infer_instance

/-! Concrete fixtures used by the claim witnesses and counterexamples; the
numbers follow Scenario A of the spec (total_seats = 4, price_per_seat = 1000,
a reservation of 2 seats) and Scenario E (prior rating state avg = 4.0,
count = 2). -/

/-- The driver of the fixture trip, fully verified, prior rating 4.0 over 2. -/
def drvUser : User :=
  { id := 10
    is_phone_verified := true
    is_active := true
    user_type := UserType.CONDUCTEUR
    status := UserStatus.VERIFIED
    driver_license_verified := true
    rating_average := 4
    total_ratings := 2 }

/-- The passenger of the fixture reservation, phone-verified. -/
def paxUser : User :=
  { id := 20
    is_phone_verified := true
    is_active := true
    user_type := UserType.PASSAGER
    status := UserStatus.VERIFIED
    driver_license_verified := false
    rating_average := 0
    total_ratings := 0 }

/-- Scenario A trip: 4 seats, all free, 1000 per seat, ACTIVE. -/
def tripA : Trip :=
  { id := 1
    driver_id := 10
    total_seats := 4
    available_seats := 4
    price_per_seat := 1000
    status := TripStatus.ACTIVE
    departure_datetime := 1000 }

/-- The Scenario A trip after two of its four seats were taken. -/
def tripA2 : Trip := { tripA with available_seats := 2 }

/-- A CONFIRMED 2-seat reservation of `paxUser` on the fixture trip, with the
Scenario A price snapshot. -/
def resConfirmed2 : Reservation :=
  { trip_id := 1
    passenger_id := 20
    number_of_seats := 2
    status := ReservationStatus.CONFIRMED
    total_price := 2000
    price_per_seat := 1000
    platform_fee := 100
    confirmed_at := some 10 }

/-- The fixture reservation still awaiting driver confirmation. -/
def resPending2 : Reservation :=
  { resConfirmed2 with status := ReservationStatus.PENDING, confirmed_at := none }

/-- The fixture reservation after payment. -/
def resPaid2 : Reservation :=
  { resConfirmed2 with status := ReservationStatus.PAID }

/-- The fixture reservation after trip completion (ratable). -/
def resCompleted2 : Reservation :=
  { resConfirmed2 with status := ReservationStatus.COMPLETED }

/-- The completed fixture reservation after the passenger already rated the
driver 5. -/
def resRated2 : Reservation :=
  { resCompleted2 with driver_rating := some 5 }

/-- A 2-seat creation payload. -/
def dataTwoSeats : ReservationData := { number_of_seats := 2 }

/-! ## Claim theorems -/

/-- Claim C1 (code bug): the claim says cancelling a CONFIRMED or PAID
reservation increases the trip's available_seats by the reservation's seat
count.  The source overwrites `reservation.status` with the CANCELLED value
and only afterwards tests `status in [CONFIRMED, PAID]`, so the release
branch is dead: at the failing input (CONFIRMED 2-seat reservation, trip with
2 of 4 seats free, cancelled by its passenger) the cancel succeeds and stamps
status, time and reason, but returns the trip unchanged with
available_seats still 2 instead of 4. -/
theorem c1_cancel_confirmed_releases_no_seats :
    ReservationService.cancel_reservation resConfirmed2 tripA2 paxUser
        "change of plans" 100 =
      Except.ok ({ resConfirmed2 with
                    status := ReservationStatus.CANCELLED_BY_PASSENGER
                    cancelled_at := some 100
                    cancellation_reason := some "change of plans" }, tripA2) ∧
    resConfirmed2.status = ReservationStatus.CONFIRMED ∧
    resConfirmed2.number_of_seats = 2 ∧
    tripA2.available_seats = 2 := by
  exact ⟨rfl, rfl, rfl, rfl⟩

/-- Claim C2 (code bug): the claim says the start operation succeeds exactly
on status PAID.  The service `mark_reservation_as_started` instead demands
CONFIRMED: at the failing input (a PAID reservation) it raises a conflict
error, while it happily starts a merely CONFIRMED reservation; the unused
model method `Reservation.start_trip` implements the claimed PAID guard. -/
theorem c2_service_start_rejects_paid :
    ReservationService.mark_reservation_as_started resPaid2 tripA2 paxUser 50 =
      Except.error ApiError.badRequest ∧
    resPaid2.status = ReservationStatus.PAID ∧
    Reservation.start_trip resPaid2 50 =
      ({ resPaid2 with status := ReservationStatus.STARTED
                       actual_pickup_time := some 50 }, true) ∧
    ReservationService.mark_reservation_as_started resConfirmed2 tripA2 paxUser 50 =
      Except.ok { resConfirmed2 with status := ReservationStatus.STARTED
                                     actual_pickup_time := some 50 } := by
  exact ⟨rfl, rfl, rfl, rfl⟩

/-- Claim C7: `update_rating` sets the average to
(old_average * old_count + new_rating) / (old_count + 1) and increments the
count by one; from (average 4.0, count 2), rating 5 yields (13/3, 3). -/
theorem c7_update_rating_formula (u : User) (r : ℚ) :
    (u.update_rating r).rating_average =
      (u.rating_average * (u.total_ratings : ℚ) + r) / ((u.total_ratings : ℚ) + 1) ∧
    (u.update_rating r).total_ratings = u.total_ratings + 1 ∧
    (drvUser.update_rating 5).rating_average = 13 / 3 ∧
    (drvUser.update_rating 5).total_ratings = 3 := by
  refine ⟨?_, rfl, ?_, rfl⟩
  · unfold User.update_rating
    push_cast
    ring_nf
  · norm_num [User.update_rating, drvUser]

/-- Claim C8 (code bug): the claim says a second rate call by the same party
leaves the target's rating state unchanged.  `rate_trip` has no already-rated
guard: starting from the completed fixture reservation and the driver at
(average 4, count 2), the passenger's first rating 5 moves the driver to
(13/3, 3), and an identical second call applies `update_rating` again,
moving the driver to (9/2, 4). -/
theorem c8_second_rating_double_applies :
    ReservationService.rate_trip resCompleted2 tripA2 drvUser paxUser paxUser 5 none =
      Except.ok (resRated2, drvUser.update_rating 5, paxUser) ∧
    (drvUser.update_rating 5).total_ratings = 3 ∧
    (drvUser.update_rating 5).rating_average = 13 / 3 ∧
    ReservationService.rate_trip resRated2 tripA2 (drvUser.update_rating 5)
        paxUser paxUser 5 none =
      Except.ok (resRated2, (drvUser.update_rating 5).update_rating 5, paxUser) ∧
    ((drvUser.update_rating 5).update_rating 5).total_ratings = 4 ∧
    ((drvUser.update_rating 5).update_rating 5).rating_average = 9 / 2 := by
  refine ⟨rfl, rfl, ?_, rfl, rfl, ?_⟩
  · norm_num [User.update_rating, drvUser]
  · norm_num [User.update_rating, drvUser]

/-- Claim C5 counterexample: `cancel_booking` does not bound the restored
count by total_seats.  On the Scenario A trip (ACTIVE, 4 of 4 seats free,
invariant holds) a single release of one seat yields available_seats = 5 >
total_seats = 4 and breaks the invariant. -/
theorem c5_release_unbounded_counterexample :
    TripInv tripA ∧ tripA.available_seats = 4 ∧ tripA.total_seats = 4 ∧
    (Trip.cancel_booking tripA 1).available_seats = 5 ∧
    ¬ TripInv (Trip.cancel_booking tripA 1) := by
  decide

/-- Claim C5 as amended: `book_seat` preserves the trip invariant
unconditionally (for a nonnegative seat count), while `cancel_booking`
preserves it only provided the released count does not exceed the
outstanding seats (total_seats - available_seats); the source applies no
clamp at total_seats, so an unmatched or repeated release can exceed
capacity. -/
theorem c5_seat_ops_preserve_invariant (t : Trip) (n now : Int)
    (hInv : TripInv t) (hn : 0 ≤ n) :
    TripInv (Trip.book_seat t n now).1 ∧
    (t.available_seats + n ≤ t.total_seats → TripInv (Trip.cancel_booking t n)) := by
  obtain ⟨h0, hle, hiff⟩ := hInv
  constructor
  · unfold Trip.book_seat Trip.is_bookable TripInv
    dsimp only
    split_ifs with hg hz
    · obtain ⟨hgn, hb⟩ := hg
      rw [decide_eq_true_iff] at hb
      dsimp only
      exact ⟨by omega, by omega, fun _ => by simp [hz]⟩
    · obtain ⟨hgn, hb⟩ := hg
      rw [decide_eq_true_iff] at hb
      dsimp only
      refine ⟨by omega, by omega, fun _ => ?_⟩
      rw [hb.1]
      simp only [reduceCtorEq, false_iff]
      exact hz
    · exact ⟨h0, hle, hiff⟩
  · intro hbound
    unfold Trip.cancel_booking TripInv
    dsimp only
    split_ifs with hc
    · obtain ⟨hcf, hcp⟩ := hc
      dsimp only
      refine ⟨by omega, by omega, fun _ => ?_⟩
      simp only [reduceCtorEq, false_iff]
      omega
    · simp only [not_and, not_lt] at hc
      dsimp only
      refine ⟨by omega, by omega, fun hs => ?_⟩
      rcases hs with hs | hs
      · have hne : t.available_seats ≠ 0 := by
          intro h
          have h2 := (hiff (Or.inl hs)).mpr h
          rw [hs] at h2
          exact absurd h2 (by simp)
        rw [hs]
        simp only [reduceCtorEq, false_iff]
        omega
      · have hz : t.available_seats = 0 := (hiff (Or.inr hs)).mp hs
        have hc2 := hc hs
        rw [hs]
        simp only [true_iff]
        omega

/-- Claim C5 witness: the amended invariant theorem applied to the fixture
trip with 2 of 4 seats free and a two-seat operation, which exercises both
the booking-to-FULL case and the in-bound release case. -/
theorem c5_seat_ops_preserve_invariant_witness :
    TripInv (Trip.book_seat tripA2 2 0).1 ∧
    (tripA2.available_seats + 2 ≤ tripA2.total_seats →
      TripInv (Trip.cancel_booking tripA2 2)) :=
  c5_seat_ops_preserve_invariant tripA2 2 0 (by decide) (by decide)

/-- Claim C3: driver confirmation with accept = true succeeds exactly when
the caller is the trip's driver, the reservation is PENDING and the trip has
at least number_of_seats free; on success the reservation becomes CONFIRMED
with confirmed_at stamped, available_seats drops by exactly number_of_seats,
and (starting from an ACTIVE trip) the status is FULL exactly when the seats
hit zero, otherwise it stays ACTIVE; any guard failure is an error with no
mutation. -/
theorem c3_confirm_accept (r : Reservation) (t : Trip) (c : User)
    (message : Option String) (now : Int) (hA : t.status = TripStatus.ACTIVE) :
    match ReservationService.confirm_reservation r t c true message now with
    | Except.ok (r1, t1) =>
        (t.driver_id = c.id ∧ r.status = ReservationStatus.PENDING ∧
          r.number_of_seats ≤ t.available_seats) ∧
        r1.status = ReservationStatus.CONFIRMED ∧
        r1.confirmed_at = some now ∧
        t1.available_seats = t.available_seats - r.number_of_seats ∧
        t1.total_seats = t.total_seats ∧
        (t1.status = TripStatus.FULL ↔ t1.available_seats = 0) ∧
        (t1.available_seats ≠ 0 → t1.status = TripStatus.ACTIVE)
    | Except.error _ =>
        ¬ (t.driver_id = c.id ∧ r.status = ReservationStatus.PENDING ∧
          r.number_of_seats ≤ t.available_seats) := by
  unfold ReservationService.confirm_reservation
  by_cases g1 : t.driver_id = c.id
  · rw [if_neg (not_not_intro g1)]
    by_cases g2 : r.status = ReservationStatus.PENDING
    · rw [if_neg (not_not_intro g2), if_pos rfl]
      by_cases g3 : t.available_seats < r.number_of_seats
      · rw [if_pos g3]
        dsimp only
        rintro ⟨-, -, gle⟩
        omega
      · rw [if_neg g3]
        dsimp only
        refine ⟨⟨g1, g2, by omega⟩, ?_, ?_, ?_, ?_, ?_, ?_⟩
        · cases message <;> rfl
        · cases message <;> rfl
        · split <;> rfl
        · split <;> rfl
        · split
          · rename_i hz
            simp [hz]
          · rename_i hz
            rw [hA]
            simp only [reduceCtorEq, false_iff]
            exact hz
        · split
          · rename_i hz
            intro h
            exact absurd hz h
          · exact fun _ => hA
    · rw [if_pos g2]
      dsimp only
      rintro ⟨-, gp, -⟩
      exact g2 gp
  · rw [if_pos g1]
    dsimp only
    rintro ⟨gp, -, -⟩
    exact g1 gp

/-- Claim C3 witness: the confirmation theorem at Scenario A (trip with 4 of
4 seats free, PENDING 2-seat reservation, the trip's driver accepting). -/
theorem c3_confirm_accept_witness :
    match ReservationService.confirm_reservation resPending2 tripA drvUser true none 5 with
    | Except.ok (r1, t1) =>
        (tripA.driver_id = drvUser.id ∧
          resPending2.status = ReservationStatus.PENDING ∧
          resPending2.number_of_seats ≤ tripA.available_seats) ∧
        r1.status = ReservationStatus.CONFIRMED ∧
        r1.confirmed_at = some 5 ∧
        t1.available_seats = tripA.available_seats - resPending2.number_of_seats ∧
        t1.total_seats = tripA.total_seats ∧
        (t1.status = TripStatus.FULL ↔ t1.available_seats = 0) ∧
        (t1.available_seats ≠ 0 → t1.status = TripStatus.ACTIVE)
    | Except.error _ =>
        ¬ (tripA.driver_id = drvUser.id ∧
          resPending2.status = ReservationStatus.PENDING ∧
          resPending2.number_of_seats ≤ tripA.available_seats) :=
  c3_confirm_accept resPending2 tripA drvUser none 5 rfl

/-- Claim C4: `create_reservation` never touches the trip: on success it
returns the trip unchanged and appends a PENDING reservation with no seat
deduction, and it succeeds exactly when every creation guard (phone verified,
not the driver, bookable trip, enough seats, no active duplicate) holds;
otherwise it errors without mutating anything. -/
theorem c4_create_reservation_frame (trip : Trip)
    (reservations : List Reservation) (data : ReservationData)
    (passenger : User) (now : Int) :
    match ReservationService.create_reservation trip reservations data passenger now with
    | Except.ok (t1, rs1, r1) =>
        t1 = trip ∧ rs1 = reservations ++ [r1] ∧
        r1.status = ReservationStatus.PENDING ∧
        r1.number_of_seats = data.number_of_seats ∧
        (passenger.is_phone_verified = true ∧ trip.driver_id ≠ passenger.id ∧
          trip.status = TripStatus.ACTIVE ∧ 0 < trip.available_seats ∧
          now < trip.departure_datetime ∧
          data.number_of_seats ≤ trip.available_seats ∧
          findActiveReservation reservations trip.id passenger.id = none)
    | Except.error _ =>
        ¬ (passenger.is_phone_verified = true ∧ trip.driver_id ≠ passenger.id ∧
          trip.status = TripStatus.ACTIVE ∧ 0 < trip.available_seats ∧
          now < trip.departure_datetime ∧
          data.number_of_seats ≤ trip.available_seats ∧
          findActiveReservation reservations trip.id passenger.id = none) := by
  unfold ReservationService.create_reservation
  split_ifs with h1 h2 h3 h4 h5 <;> dsimp only
  · rintro ⟨g1, -, -, -, -, -, -⟩
    rw [g1] at h1
    exact Bool.noConfusion h1
  · rintro ⟨-, g2, -, -, -, -, -⟩
    exact g2 h2
  · rintro ⟨-, -, g3, g4, g5, -, -⟩
    rcases h3 with h | h | h
    · exact h g3
    · omega
    · omega
  · rintro ⟨-, -, -, -, -, g6, -⟩
    omega
  · rintro ⟨-, -, -, -, -, -, g7⟩
    rw [g7] at h5
    simp at h5
  · push_neg at h3
    refine ⟨rfl, rfl, rfl, rfl, by simpa using h1, h2, h3.1, by omega, by omega,
      by omega, Option.not_isSome_iff_eq_none.mp h5⟩

/-- Claim C6: the financial snapshot taken at creation satisfies
total_price = price_per_seat × seats and platform_fee = 0.05 × total_price,
with price_per_seat copied verbatim from the trip; on the Scenario A inputs
(2 seats at 1000) this gives total_price 2000 and platform_fee 100. -/
theorem c6_pricing_snapshot (trip : Trip) (reservations : List Reservation)
    (data : ReservationData) (passenger : User) (now : Int) :
    (match ReservationService.create_reservation trip reservations data passenger now with
    | Except.ok (_, _, r1) =>
        r1.total_price = trip.price_per_seat * (data.number_of_seats : ℚ) ∧
        r1.platform_fee = (0.05 : ℚ) * r1.total_price ∧
        r1.price_per_seat = trip.price_per_seat
    | Except.error _ => True) ∧
    (ReservationService.create_reservation tripA [] dataTwoSeats paxUser 0).toOption.map
        (fun out => (out.2.2.total_price, out.2.2.platform_fee, out.2.2.price_per_seat)) =
      some (2000, 100, 1000) := by
  constructor
  · unfold ReservationService.create_reservation
    split_ifs <;> dsimp only
    exact ⟨rfl, mul_comm _ _, rfl⟩
  · norm_num [ReservationService.create_reservation, findActiveReservation,
      tripA, paxUser, dataTwoSeats, Except.toOption]

/-- Claim C10: `create_trip` errors, creating nothing, when the driver
already has five or more ACTIVE/FULL trips (or may not create trips at all);
on success the driver had fewer than five and the inserted ACTIVE trip raises
the active count by exactly one, so a driver never exceeds five concurrently
active trips. -/
theorem c10_create_trip_active_limit (trips : List Trip) (data : TripData)
    (driver : User) (new_id : Nat) :
    match TripService.create_trip trips data driver new_id with
    | Except.ok (trips1, _) =>
        TripService.active_trips_count trips driver.id < 5 ∧
        TripService.active_trips_count trips1 driver.id =
          TripService.active_trips_count trips driver.id + 1
    | Except.error _ =>
        driver.can_create_trip = false ∨
        5 ≤ TripService.active_trips_count trips driver.id := by
  unfold TripService.create_trip
  split_ifs with h1 h2
  · exact Or.inl h1
  · exact Or.inr h2
  · refine ⟨by omega, ?_⟩
    unfold TripService.active_trips_count
    rw [List.filter_append, List.length_append]
    simp [List.filter]

end Covoiturage
